import Mathlib

/-
Verification development for the Vendure CMS integration plugin
(src/plugins/cms).  The definitions below are a shallow embedding of

  - src/plugins/cms/services/storyblok.service.ts   (StoryblokService)
  - src/plugins/cms/services/cms-sync.service.ts    (CmsSyncService)
  - src/plugins/cms/cms.plugin.ts                   (CmsPlugin dispatcher)

Conventions of the embedding:

  - TypeScript async functions that may throw are modelled in the monad
    M below: a state/exception monad over a World record holding the
    simulated clock, the Storyblok story store, a network oracle and
    the trace of outbound HTTP calls.
  - Time passes only where the source awaits setTimeout (the rate-limit
    delay of the bulk loop and the simulated 100 ms API delay of the
    processors).  Outbound HTTP calls are recorded with their start
    time; the code enforces no spacing around them, so they take zero
    model time (this is the adversarial minimum an enforcement claim
    must survive).
  - Database reads (TypeORM repositories) are modelled as pure lookups
    in a Db record; they are not part of the outbound-call trace.
  - The initialization gate of makeStoryblokRequest (the busy-wait on
    isInitialized, storyblok.service.ts lines 713-729) is modelled as
    already open: every scenario in this file runs after bootstrap has
    completed, which is the regime all of the claims are about.
-/

namespace CmsSpec

/-- Operation type of a sync job, from types.ts: create, update or delete. -/
inductive OperationType where
  | create
  | update
  | delete
deriving DecidableEq, Repr

/-- String form of an operation type, as interpolated into log and result
messages by the TypeScript template literals. -/
def OperationType.toStr : OperationType → String
  | .create => "create"
  | .update => "update"
  | .delete => "delete"

/-- One localized translation record attached to a commerce entity
(LocalizedVariant in the spec): language code, name, optional slug and
description.  ProductVariant translations carry no slug. -/
structure Translation where
  languageCode : String
  name : String
  slug : Option String := none
  description : Option String := none
deriving DecidableEq, Repr

/-- A Product row with its translations, as fetched by the services. -/
structure ProductE where
  id : Nat
  translations : List Translation
deriving DecidableEq, Repr

/-- A ProductVariant row with its product foreign key and translations. -/
structure VariantE where
  id : Nat
  productId : Nat
  translations : List Translation
deriving DecidableEq, Repr

/-- A Collection row with its translations. -/
structure CollectionE where
  id : Nat
  translations : List Translation
deriving DecidableEq, Repr

/-- The commerce database visible to the services: the three entity tables,
each read through TransactionalConnection in the source. -/
structure Db where
  products : List ProductE
  variants : List VariantE
  collections : List CollectionE
deriving DecidableEq, Repr

/-- Modelled from the spec: TranslationUtils.getTranslationByLanguage.  The
file src/plugins/cms/utils/translation.utils.ts is imported by both services
but absent from the sources, so this helper is modelled from the spec, which
says the transformer selects the LocalizedVariant matching the default
language code (at most one per language). -/
def getTranslationByLanguage (ts : List Translation) (lang : String) :
    Option Translation :=
  ts.find? (fun t => t.languageCode == lang)

/-- Modelled from the spec: TranslationUtils.getSlugByLanguage returns the
slug of the translation matching the given language code, if any; the spec
says canonical name and slug come from the default-language variant. -/
def getSlugByLanguage (ts : List Translation) (lang : String) :
    Option String :=
  (getTranslationByLanguage ts lang).bind (fun t => t.slug)

/-- Modelled from the spec: TranslationUtils.validateTranslations is invoked
by StoryblokService.syncProduct and syncProductVariant before dispatching; the
error taxonomy of the spec makes a missing default-language variant a
non-fatal skip (logged warning), so the check is modelled as non-throwing. -/
def validateTranslations (_ts : List Translation) (_lang : String) : Unit :=
  ()

/-- Content block of a Storyblok story as built by transformProductData and
transformVariantData: a product story carries a variants reference list, a
variant story a parentProduct reference list; the component name is fixed by
the constructor (COMPONENT_TYPE in storyblok.service.ts). -/
inductive StoryContent where
  | productContent (vendureId : String) (variants : List String)
  | variantContent (vendureId : String) (parentProduct : List String)
deriving DecidableEq, Repr

/-- Component name of a content block (COMPONENT_TYPE map). -/
def StoryContent.component : StoryContent → String
  | .productContent _ _ => "vendure_product"
  | .variantContent _ _ => "vendure_product_variant"

/-- The vendureId join key carried by a content block. -/
def StoryContent.vendureId : StoryContent → String
  | .productContent v _ => v
  | .variantContent v _ => v

/-- The parentProduct reference list of a content block (empty for product
stories, which carry a variants list instead). -/
def StoryContent.parentProduct : StoryContent → List String
  | .productContent _ _ => []
  | .variantContent _ p => p

/-- The variants reference list of a content block (empty for variant
stories). -/
def StoryContent.variantRefs : StoryContent → List String
  | .productContent _ v => v
  | .variantContent _ _ => []

/-- Request body of a story create or update: the story object (name, slug,
content) plus the publish flag, mirroring the object literals built by the
transform functions.  The slug is optional because variant translations have
no slug, in which case the source serializes a story without one. -/
structure StoryPayload where
  name : String
  slug : Option String
  content : StoryContent
  publish : Nat
deriving DecidableEq, Repr

/-- A story stored in the Storyblok space: external id, name, slug and
content.  Ids are allocated from 1 upward by the model, so the JavaScript
falsiness check on story.id in the source never sees an id of 0. -/
structure Story where
  id : Nat
  name : String
  slug : Option String
  content : StoryContent
deriving DecidableEq, Repr

/-- An outbound Storyblok management API call, as issued through
makeStoryblokRequest: method plus endpoint, with the body for POST/PUT. -/
inductive ApiCall where
  | get (endpoint : String)
  | post (endpoint : String) (payload : StoryPayload)
  | put (endpoint : String) (payload : StoryPayload)
  | httpDelete (endpoint : String)
deriving DecidableEq, Repr

/-- The mutable world threaded through the services: the simulated clock (ms),
the Storyblok story store with its id allocator, the network oracle (whether
the n-th outbound call succeeds), and the ordered trace of outbound calls with
their start times. -/
structure World where
  now : Nat
  stories : List Story
  nextId : Nat
  httpOk : Nat → Bool
  trace : List (Nat × ApiCall)

/-- The effect monad of the embedding: state over World with string-typed
exceptions, mirroring async TypeScript code that may throw an Error whose
message is later read by the catch blocks. -/
def M (α : Type) : Type :=
  World → Except String α × World

/-- Run an M computation on a world. -/
def M.run {α : Type} (x : M α) (w : World) : Except String α × World :=
  x w

/-- Pure return for M. -/
def M.pure {α : Type} (a : α) : M α :=
  fun w => (Except.ok a, w)

/-- Sequencing for M: an exception short-circuits, keeping the world in which
it was raised (side effects before the throw persist). -/
def M.bind {α β : Type} (x : M α) (f : α → M β) : M β :=
  fun w =>
    match x w with
    | (Except.ok a, w2) => f a w2
    | (Except.error e, w2) => (Except.error e, w2)

instance : Monad M where
  pure := M.pure
  bind := M.bind

/-- Throw, modelling a TypeScript throw new Error(message). -/
def mThrow {α : Type} (e : String) : M α :=
  fun w => (Except.error e, w)

/-- Try/catch, modelling the TypeScript try blocks: the handler receives the
error message. -/
def tryCatchM {α : Type} (x : M α) (h : String → M α) : M α :=
  fun w =>
    match x w with
    | (Except.ok a, w2) => (Except.ok a, w2)
    | (Except.error e, w2) => h e w2

/-- Awaiting setTimeout: advances the clock by the given milliseconds. -/
def mSleep (ms : Nat) : M Unit :=
  fun w => (Except.ok (), { w with now := w.now + ms })

/-- Read the current world. -/
def getWorld : M World :=
  fun w => (Except.ok w, w)

/-- Apply a state update. -/
def modifyWorld (f : World → World) : M Unit :=
  fun w => (Except.ok (), f w)

/-- Core of makeStoryblokRequest (storyblok.service.ts lines 692-746): record
the outbound call at the current time, then consult the network oracle for
this call index; a non-ok response raises the composed Storyblok API error
message, as the source throws after response.ok is false. -/
def httpAttempt (c : ApiCall) : M Unit :=
  fun w =>
    let idx := w.trace.length
    let w2 := { w with trace := w.trace ++ [(w.now, c)] }
    if w.httpOk idx then (Except.ok (), w2)
    else (Except.error "Storyblok API error: 500", w2)

/-- GET stories?by_slugs=slug: returns the stories matching the slug. -/
def requestStoriesBySlug (slug : String) : M (List Story) := do
  httpAttempt (ApiCall.get ("stories?by_slugs=" ++ slug))
  let w ← getWorld
  pure (w.stories.filter (fun s => s.slug == some slug))

/-- POST stories: creates a story from the payload, allocating the next
external id, and returns it (the source reads result.story.id). -/
def requestCreateStory (p : StoryPayload) : M Story := do
  httpAttempt (ApiCall.post "stories" p)
  let w ← getWorld
  let st : Story :=
    { id := w.nextId, name := p.name, slug := p.slug, content := p.content }
  modifyWorld (fun w2 =>
    { w2 with stories := w2.stories ++ [st], nextId := w2.nextId + 1 })
  pure st

/-- PUT stories/id: replaces name, slug and content of the identified story. -/
def requestUpdateStory (storyId : Nat) (p : StoryPayload) : M Unit := do
  httpAttempt (ApiCall.put ("stories/" ++ toString storyId) p)
  modifyWorld (fun w =>
    { w with stories := w.stories.map (fun s =>
        if s.id == storyId then
          { id := s.id, name := p.name, slug := p.slug, content := p.content }
        else s) })

/-- DELETE stories/id: removes the identified story; an empty body is success
(the source returns an empty object for DELETE). -/
def requestDeleteStory (storyId : Nat) : M Unit := do
  httpAttempt (ApiCall.httpDelete ("stories/" ++ toString storyId))
  modifyWorld (fun w =>
    { w with stories := w.stories.filter (fun s => s.id != storyId) })

/-- StoryblokService.findStoryBySlug (lines 140-151): GET by slug, pick the
exact slug match; any error is caught and logged, making the result undefined
(none) rather than a thrown error. -/
def findStoryBySlug (slug : String) : M (Option Story) :=
  tryCatchM
    (do
      let stories ← requestStoriesBySlug slug
      pure (stories.find? (fun s => s.slug == some slug)))
    (fun _ => M.pure none)

/-- StoryblokService.findProductVariants (lines 158-178): the variants of a
product from the database, ordered by id ascending; database errors fall back
to an empty list (not modelled: the Db lookup is total). -/
def findProductVariants (db : Db) (productId : Nat) : List VariantE :=
  (db.variants.filter (fun v => v.productId == productId)).insertionSort
    (fun a b => a.id ≤ b.id)

/-- Lookup loop of findVariantStoriesForProduct: for each variant in order,
derive the slug productSlug-variant-id, look the story up, and keep the ids of
the stories found. -/
def variantLookupLoop (productSlug : String) : List VariantE → M (List String)
  | [] => M.pure []
  | v :: rest => do
    let variantSlug := productSlug ++ "-variant-" ++ toString v.id
    let story ← findStoryBySlug variantSlug
    let tail ← variantLookupLoop productSlug rest
    match story with
    | some st => pure (toString st.id :: tail)
    | none => pure tail

/-- StoryblokService.findVariantStoriesForProduct (lines 186-208): with no
product slug the lookup returns [] immediately; otherwise it searches one
derived slug per stored variant of the product. -/
def findVariantStoriesForProduct (db : Db) (productId : Nat)
    (_lang : String) (productSlug : Option String) : M (List String) :=
  match productSlug with
  | none => M.pure []
  | some ps => variantLookupLoop ps (findProductVariants db productId)

/-- StoryblokService.findParentProductStory (lines 216-250): fetch the parent
product; a missing product, a missing default-language slug, or a missing
story all resolve to none; any error is caught and resolves to none. -/
def findParentProductStory (db : Db) (variant : VariantE) (lang : String) :
    M (Option String) :=
  tryCatchM
    (match db.products.find? (fun p => p.id == variant.productId) with
     | none => M.pure none
     | some product =>
       match getSlugByLanguage product.translations lang with
       | some slug => do
         let story ← findStoryBySlug slug
         pure (story.map (fun s => toString s.id))
       | none => M.pure none)
    (fun _ => M.pure none)

/-- StoryblokService.transformVariantData (lines 457-498): skip (none) without
any lookup when the default-language translation is missing; otherwise resolve
the parent product story and build the payload.  The slug comes from the
variant translations, which have no slug field in Vendure, and the
parentProduct list is a singleton or empty. -/
def transformVariantData (db : Db) (variant : VariantE) (lang : String) :
    M (Option StoryPayload) :=
  match getTranslationByLanguage variant.translations lang with
  | none => M.pure none
  | some dt => do
    let parentId ← findParentProductStory db variant lang
    let slug := getSlugByLanguage variant.translations lang
    pure (some
      { name := dt.name
        slug := slug
        content := StoryContent.variantContent (toString variant.id)
          (match parentId with | some i => [i] | none => [])
        publish := 1 })

/-- StoryblokService.transformProductData (lines 527-570): skip (none) without
any lookup when the default-language translation is missing; otherwise resolve
the variant story ids and build the payload with vendureId the stringified
product id. -/
def transformProductData (db : Db) (product : ProductE) (lang : String)
    (productSlug : Option String) : M (Option StoryPayload) :=
  match getTranslationByLanguage product.translations lang with
  | none => M.pure none
  | some dt => do
    let variantStoryIds ←
      findVariantStoriesForProduct db product.id lang productSlug
    let slug := getSlugByLanguage product.translations lang
    pure (some
      { name := dt.name
        slug := slug
        content := StoryContent.productContent (toString product.id)
          variantStoryIds
        publish := 1 })

/-- StoryblokService.createStoryFromProduct (lines 252-274): transform, and on
a skip log and return without a request; otherwise POST the story. -/
def createStoryFromProduct (db : Db) (product : ProductE) (lang : String)
    (productSlug : Option String) : M Unit := do
  let data ← transformProductData db product lang productSlug
  match data with
  | none => pure ()
  | some payload => do
    let _ ← requestCreateStory payload
    pure ()

/-- StoryblokService.updateStoryFromProduct (lines 276-319): no slug means log
and return; a missing existing story falls back to create (the source calls
createStoryFromProduct without the productSlug argument there); otherwise
transform and PUT in place on the found story id. -/
def updateStoryFromProduct (db : Db) (product : ProductE) (lang : String)
    (productSlug : Option String) : M Unit :=
  match getSlugByLanguage product.translations lang with
  | none => M.pure ()
  | some slug => do
    let existing ← findStoryBySlug slug
    match existing with
    | none => createStoryFromProduct db product lang none
    | some st => do
      let data ← transformProductData db product lang productSlug
      match data with
      | none => pure ()
      | some payload => requestUpdateStory st.id payload

/-- StoryblokService.deleteStoryFromProduct (lines 321-353): no slug or no
existing story means nothing to delete; otherwise DELETE by story id. -/
def deleteStoryFromProduct (product : ProductE) (lang : String) :
    M Unit :=
  match getSlugByLanguage product.translations lang with
  | none => M.pure ()
  | some slug => do
    let existing ← findStoryBySlug slug
    match existing with
    | none => pure ()
    | some st => requestDeleteStory st.id

/-- StoryblokService.createStoryFromVariant (lines 356-377). -/
def createStoryFromVariant (db : Db) (variant : VariantE) (lang : String) :
    M Unit := do
  let data ← transformVariantData db variant lang
  match data with
  | none => pure ()
  | some payload => do
    let _ ← requestCreateStory payload
    pure ()

/-- StoryblokService.updateStoryFromVariant (lines 379-421): the slug used for
the lookup is the variant translation slug, which Vendure variant translations
do not carry; absent slug means log and return. -/
def updateStoryFromVariant (db : Db) (variant : VariantE) (lang : String) :
    M Unit :=
  match getSlugByLanguage variant.translations lang with
  | none => M.pure ()
  | some slug => do
    let existing ← findStoryBySlug slug
    match existing with
    | none => createStoryFromVariant db variant lang
    | some st => do
      let data ← transformVariantData db variant lang
      match data with
      | none => pure ()
      | some payload => requestUpdateStory st.id payload

/-- StoryblokService.deleteStoryFromVariant (lines 423-455). -/
def deleteStoryFromVariant (variant : VariantE) (lang : String) :
    M Unit :=
  match getSlugByLanguage variant.translations lang with
  | none => M.pure ()
  | some slug => do
    let existing ← findStoryBySlug slug
    match existing with
    | none => pure ()
    | some st => requestDeleteStory st.id

/-- StoryblokService.syncProduct (lines 41-87): validateTranslations (modelled
non-throwing), then dispatch by operation type; errors are logged and
rethrown, which is the identity on the error path of M. -/
def syncProduct (db : Db) (product : ProductE) (lang : String)
    (op : OperationType) (productSlug : Option String) : M Unit :=
  let _ := validateTranslations product.translations lang
  match op with
  | .create => createStoryFromProduct db product lang productSlug
  | .update => updateStoryFromProduct db product lang productSlug
  | .delete => deleteStoryFromProduct product lang

/-- StoryblokService.syncProductVariant (lines 89-133): its parameter object
destructures only variant, defaultLanguageCode and operationType — the
variantSlug property that CmsSyncService.syncVariantToCms passes is not part
of this signature and is discarded. -/
def syncProductVariant (db : Db) (variant : VariantE) (lang : String)
    (op : OperationType) : M Unit :=
  let _ := validateTranslations variant.translations lang
  match op with
  | .create => createStoryFromVariant db variant lang
  | .update => updateStoryFromVariant db variant lang
  | .delete => deleteStoryFromVariant variant lang

/-- Result of a single sync job, from types.ts SyncResponse: success flag,
human-readable message, and an optional timestamp (new Date() in the source,
modelled as the clock value at completion). -/
structure SyncResponse where
  success : Bool
  message : String
  timestamp : Option Nat := none
deriving DecidableEq, Repr

/-- Job data handed to the processors, from types.ts SyncJobData (the
vendureData snapshot of the dispatcher job type is modelled separately on the
dispatcher, since the services never read it). -/
structure SyncJobData where
  entityType : String
  entityId : String
  operationType : OperationType
  timestamp : String := ""
  retryCount : Nat := 0
deriving DecidableEq, Repr

/-- The variant slug derived by CmsSyncService.syncVariantToCms (lines
444-446): productSlug-variant-id when the parent product has a
default-language slug, else the fallback variant-id. -/
def derivedVariantSlug (productSlug : Option String) (variantId : Nat) :
    String :=
  match productSlug with
  | some ps => ps ++ "-variant-" ++ toString variantId
  | none => "variant-" ++ toString variantId

/-- CmsSyncService.syncProductToCms (services/cms-sync.service.ts lines
340-420): re-fetch the product; a missing product throws, caught below into a
failed response whose message embeds the error text; otherwise derive the
product slug, run the Storyblok sync, simulate the 100 ms API delay, and
return the success response with a timestamp.  The whole body is wrapped in
try/catch, so this processor never throws across its contract. -/
def syncProductToCms (db : Db) (lang : String) (jobData : SyncJobData) :
    M SyncResponse :=
  tryCatchM
    (match db.products.find? (fun p => toString p.id == jobData.entityId) with
     | none =>
       mThrow ("Product with ID " ++ jobData.entityId ++ " not found")
     | some product => do
       let productSlug := getSlugByLanguage product.translations lang
       syncProduct db product lang jobData.operationType productSlug
       mSleep 100
       let w ← getWorld
       pure
         { success := true
           message :=
             "Product " ++ jobData.operationType.toStr ++
               " synced successfully"
           timestamp := some w.now })
    (fun e => M.pure { success := false, message := "Product sync failed: " ++ e })

/-- CmsSyncService.syncVariantToCms (lines 422-494): re-fetch the variant with
its parent product; a missing variant throws into a failed response; the
variant slug is derived from the parent slug (lines 444-446) and passed to
StoryblokService.syncProductVariant, which does not accept it (the binding
below mirrors that the value is computed and then discarded). -/
def syncVariantToCms (db : Db) (lang : String) (jobData : SyncJobData) :
    M SyncResponse :=
  tryCatchM
    (match db.variants.find? (fun v => toString v.id == jobData.entityId) with
     | none =>
       mThrow ("ProductVariant with ID " ++ jobData.entityId ++ " not found")
     | some variant =>
       match db.products.find? (fun p => p.id == variant.productId) with
       | none =>
         mThrow "Cannot read properties of undefined (reading translations)"
       | some parent => do
         let productSlug := getSlugByLanguage parent.translations lang
         let _variantSlug := derivedVariantSlug productSlug variant.id
         syncProductVariant db variant lang jobData.operationType
         mSleep 100
         let w ← getWorld
         pure
           { success := true
             message :=
               "Variant " ++ jobData.operationType.toStr ++
                 " synced successfully"
             timestamp := some w.now })
    (fun e => M.pure { success := false, message := "Variant sync failed: " ++ e })

/-- CmsSyncService.syncCollectionToCms (lines 496-552): re-fetch the
collection; a missing collection throws into a failed response; a found
collection is only logged (the CMS call is a TODO in the source), the 100 ms
delay simulated, and a success response returned. -/
def syncCollectionToCms (db : Db) (_lang : String) (jobData : SyncJobData) :
    M SyncResponse :=
  tryCatchM
    (match db.collections.find?
        (fun c => toString c.id == jobData.entityId) with
     | none =>
       mThrow ("Collection with ID " ++ jobData.entityId ++ " not found")
     | some _ => do
       mSleep 100
       let w ← getWorld
       pure
         { success := true
           message :=
             "Collection " ++ jobData.operationType.toStr ++
               " synced successfully"
           timestamp := some w.now })
    (fun e =>
      M.pure { success := false, message := "Collection sync failed: " ++ e })

/-- A permanent failure record of the bulk orchestrator errors list. -/
structure BulkError where
  entityId : String
  error : String
  attempts : Nat
deriving DecidableEq, Repr

/-- An EntityJob of the bulk loop (syncAllEntitiesToCmsGeneric lines
116-129): the entity id, the attempt counter and the attempt bound. -/
structure EntityJob where
  entityId : String
  attempts : Nat
  maxAttempts : Nat
  lastError : Option String := none
deriving DecidableEq, Repr

/-- The rate limit delay of the bulk loop: 1000 ms / 5 calls per second. -/
def rateLimitDelay : Nat := 1000 / 5

/-- The exponential backoff of the bulk loop (lines 173-176):
min(1000 * 2^(attempts-1), 10000). -/
def backoffDelay (attempts : Nat) : Nat :=
  min (1000 * 2 ^ (attempts - 1)) 10000

/-- State of one bulk reconciliation run: the threaded world, the in-memory
FIFO job queue, the pending setTimeout callbacks that will push a job back
onto the queue at their fire time, the counters, the permanent errors, and
the recorded start times of the sync-method invocations (instrumentation for
the temporal claims; the source logs these moments). -/
structure BulkState where
  world : World
  queue : List EntityJob
  timers : List (Nat × EntityJob)
  successCount : Nat
  errorCount : Nat
  finalErrors : List BulkError
  processedCount : Nat
  jobStarts : List Nat

/-- Event-loop timer delivery: a pending setTimeout callback whose fire time
has passed pushes its job onto the tail of the queue; callbacks run in fire
time order.  A callback whose fire time has not yet come stays pending — and
is lost if the while loop exits before it fires, since the loop condition is
checked synchronously. -/
def deliverDueTimers (st : BulkState) : BulkState :=
  let due := (st.timers.filter (fun t => t.1 ≤ st.world.now)).insertionSort
    (fun a b => a.1 ≤ b.1)
  { st with
    queue := st.queue ++ due.map (fun t => t.2)
    timers := st.timers.filter (fun t => ¬ t.1 ≤ st.world.now) }

/-- One iteration of the bulk while loop (lines 135-206): pop the head job,
increment attempts, await the rate limit delay, invoke the sync method.  A
returned value — whatever its success flag says — takes the success branch
(the source awaits syncMethod and unconditionally increments successCount,
ignoring the returned SyncResponse); only a thrown error reaches the catch
block, which requeues via setTimeout while attempts < maxAttempts and records
a permanent failure at attempts == maxAttempts. -/
def bulkStep (syncMethod : SyncJobData → M SyncResponse)
    (entityType : String) (st : BulkState) : BulkState :=
  match st.queue with
  | [] => st
  | j :: rest =>
    let j2 : EntityJob := { j with attempts := j.attempts + 1 }
    let w1 : World := { st.world with now := st.world.now + rateLimitDelay }
    let start := w1.now
    let jobData : SyncJobData :=
      { entityType := entityType, entityId := j2.entityId
        operationType := OperationType.update }
    match syncMethod jobData w1 with
    | (Except.ok _, w2) =>
      deliverDueTimers
        { st with
          world := w2, queue := rest
          successCount := st.successCount + 1
          processedCount := st.processedCount + 1
          jobStarts := st.jobStarts ++ [start] }
    | (Except.error e, w2) =>
      let j3 : EntityJob := { j2 with lastError := some e }
      if j2.attempts < j2.maxAttempts then
        deliverDueTimers
          { st with
            world := w2, queue := rest
            timers := st.timers ++ [(w2.now + backoffDelay j2.attempts, j3)]
            jobStarts := st.jobStarts ++ [start] }
      else
        deliverDueTimers
          { st with
            world := w2, queue := rest
            errorCount := st.errorCount + 1
            processedCount := st.processedCount + 1
            finalErrors := st.finalErrors ++
              [{ entityId := j2.entityId
                 error := "Failed after " ++ toString j2.maxAttempts ++
                   " attempts. Last error: " ++ e
                 attempts := j2.attempts }]
            jobStarts := st.jobStarts ++ [start] }

/-- The bulk while loop, fuel-indexed: stops when the queue is empty (pending
timers are then abandoned, as the source loop exits at its synchronous length
check) or when the fuel runs out. -/
def bulkLoop (syncMethod : SyncJobData → M SyncResponse)
    (entityType : String) : Nat → BulkState → BulkState
  | 0, st => st
  | fuel + 1, st =>
    match st.queue with
    | [] => st
    | _ :: _ => bulkLoop syncMethod entityType fuel
        (bulkStep syncMethod entityType st)

/-- The aggregate result of a bulk run (lines 209-215 and 67-77). -/
structure BulkResult where
  success : Bool
  totalEntities : Nat
  successCount : Nat
  errorCount : Nat
  errors : List BulkError
deriving DecidableEq, Repr

/-- The initial bulk state over an entity id list: one job per entity with
attempts 0 and maxAttempts 10 (lines 124-129). -/
def initialBulkState (w : World) (entityIds : List String) : BulkState :=
  { world := w
    queue := entityIds.map (fun i =>
      { entityId := i, attempts := 0, maxAttempts := 10 })
    timers := []
    successCount := 0
    errorCount := 0
    finalErrors := []
    processedCount := 0
    jobStarts := [] }

/-- CmsSyncService.syncAllEntitiesToCmsGeneric (lines 63-240): build the job
queue, run the rate-limited loop, and report success iff errorCount is 0.
Also returns the final bulk state for inspection of the world and trace. -/
def syncAllEntitiesToCmsGeneric (syncMethod : SyncJobData → M SyncResponse)
    (entityType : String) (entityIds : List String) (fuel : Nat)
    (w : World) : BulkResult × BulkState :=
  let stF := bulkLoop syncMethod entityType fuel (initialBulkState w entityIds)
  ({ success := stF.errorCount == 0
     totalEntities := entityIds.length
     successCount := stF.successCount
     errorCount := stF.errorCount
     errors := stF.finalErrors }, stF)

/-- CmsSyncService.syncAllProductsToCms (lines 242-270): the generic bulk run
instantiated with the product processor over all products ordered by id. -/
def syncAllProductsToCms (db : Db) (lang : String) (fuel : Nat) (w : World) :
    BulkResult × BulkState :=
  syncAllEntitiesToCmsGeneric (syncProductToCms db lang) "Product"
    ((db.products.insertionSort (fun a b => a.id ≤ b.id)).map
      (fun p => toString p.id))
    fuel w

/-- CmsPlugin.mapEventTypeToOperation (cms.plugin.ts lines 185-196): created,
updated and deleted map to create, update and delete; anything else defaults
to update. -/
def mapEventTypeToOperation (eventType : String) : OperationType :=
  if eventType == "created" then OperationType.create
  else if eventType == "deleted" then OperationType.delete
  else OperationType.update

/-- The translation snapshot carried in a dispatcher job vendureData (the
variant extractor keeps languageCode and name only, since variant translations
have no slug or description). -/
structure SnapshotTranslation where
  languageCode : String
  name : String
deriving DecidableEq, Repr

/-- The vendureData snapshot of a dispatcher job. -/
structure VendureData where
  id : String
  translations : List SnapshotTranslation
deriving DecidableEq, Repr

/-- A job as enqueued by the CmsPlugin dispatcher (SyncJobData with the
vendureData snapshot populated). -/
structure DispatchJob where
  entityType : String
  entityId : String
  operationType : OperationType
  vendureData : VendureData
deriving DecidableEq, Repr

/-- A ProductVariantEvent as seen by the dispatcher: the change kind and the
affected variants (event.entity is a ProductVariant array). -/
structure VariantChangeEvent where
  eventType : String
  variants : List VariantE
deriving DecidableEq, Repr

/-- CmsPlugin.extractVariantSyncData (cms.plugin.ts lines 142-162): reads
event.entity[0] — the first affected variant only — and builds one job from
it.  With an empty variant array, reading variant.id throws, which the
subscriber catch block turns into a logged, dropped enqueue (none here). -/
def extractVariantSyncData (ev : VariantChangeEvent) : Option DispatchJob :=
  match ev.variants with
  | [] => none
  | v :: _ =>
    some
      { entityType := "variant"
        entityId := toString v.id
        operationType := mapEventTypeToOperation ev.eventType
        vendureData :=
          { id := toString v.id
            translations := v.translations.map (fun t =>
              { languageCode := t.languageCode, name := t.name }) } }

/-- The ProductVariantEvent subscriber (cms.plugin.ts lines 89-101): extract
the sync data once per notification and enqueue that single job; an extraction
error is logged and nothing is enqueued. -/
def handleVariantEvent (ev : VariantChangeEvent) : List DispatchJob :=
  match extractVariantSyncData ev with
  | none => []
  | some job => [job]

/-- A default-language ("en") product translation matching Example A of the
spec: name Laptop Computer, slug laptop-computer. -/
def translationEn : Translation :=
  { languageCode := "en", name := "Laptop Computer"
    slug := some "laptop-computer" }

/-- Product id 1 with the single English translation of Example A. -/
def productOne : ProductE :=
  { id := 1, translations := [translationEn] }

/-- Variant id 5 of product 1 with an English name-only translation (variant
translations carry no slug). -/
def variantFive : VariantE :=
  { id := 5, productId := 1
    translations := [{ languageCode := "en", name := "Red" }] }

/-- A second variant of product 1, used by the dispatcher scenarios. -/
def variantSix : VariantE :=
  { id := 6, productId := 1
    translations := [{ languageCode := "en", name := "Blue" }] }

/-- A product carrying only a German translation, so it has no
default-language ("en") variant. -/
def productGermanOnly : ProductE :=
  { id := 2
    translations :=
      [{ languageCode := "de", name := "Rechner", slug := some "rechner" }] }

/-- Database of Example A: product 1 alone, no variants, no collections. -/
def dbExampleA : Db :=
  { products := [productOne], variants := [], collections := [] }

/-- Database with product 1 and its variant 5. -/
def dbWithVariant : Db :=
  { products := [productOne], variants := [variantFive], collections := [] }

/-- Database with only the German-translated product. -/
def dbGermanOnly : Db :=
  { products := [productGermanOnly], variants := [], collections := [] }

/-- The empty commerce database. -/
def dbEmpty : Db :=
  { products := [], variants := [], collections := [] }

/-- A fresh world: clock at 0, empty Storyblok space, ids from 1, network up,
no calls yet. -/
def worldUp : World :=
  { now := 0, stories := [], nextId := 1, httpOk := fun _ => true, trace := [] }

/-- A world in which every outbound call fails (the external API answers with
a non-ok status each time). -/
def worldDown : World :=
  { now := 0, stories := [], nextId := 1, httpOk := fun _ => false
    trace := [] }

/-- The story of product 1, already present in the space under its canonical
slug with external id 7. -/
def existingProductStory : Story :=
  { id := 7, name := "Laptop Computer", slug := some "laptop-computer"
    content := StoryContent.productContent "1" [] }

/-- A world whose space already holds the product 1 story (external id 7). -/
def worldWithProductStory : World :=
  { now := 0, stories := [existingProductStory], nextId := 8
    httpOk := fun _ => true, trace := [] }

/-- Minimum spacing of a list of call start times: each consecutive pair is
at least gap milliseconds apart (the rate-limit property of the spec). -/
def MinSpaced (gap : Nat) (times : List Nat) : Prop :=
  List.Chain' (fun a b => a + gap ≤ b) times

/-- Monotonicity of the clock under an M computation: running it never moves
the clock backwards.  Every primitive of the embedding has this property, so
every service built from them does too. -/
def nowLe {α : Type} (x : M α) : Prop :=
  ∀ w : World, w.now ≤ (x w).2.now

/-- Invariant of the bulk loop used for the rate-limit theorem: the recorded
sync start times are rate-spaced and all lie at or before the current clock. -/
def bulkInv (st : BulkState) : Prop :=
  MinSpaced rateLimitDelay st.jobStarts ∧
    ∀ x ∈ st.jobStarts, x ≤ st.world.now

/-- Unfolding lemma: running a bind splits on the first result. -/
theorem bind_apply {α β : Type} (x : M α) (f : α → M β) (w : World) :
    (x >>= f) w =
      match x w with
      | (Except.ok a, w2) => f a w2
      | (Except.error e, w2) => (Except.error e, w2) := rfl

/-- Unfolding lemma: running pure returns the value and leaves the world. -/
theorem pure_apply {α : Type} (a : α) (w : World) :
    (pure a : M α) w = (Except.ok a, w) := rfl

/-- Unfolding lemma for try/catch. -/
theorem tryCatchM_apply {α : Type} (x : M α) (h : String → M α) (w : World) :
    tryCatchM x h w =
      match x w with
      | (Except.ok a, w2) => (Except.ok a, w2)
      | (Except.error e, w2) => h e w2 := rfl

/-- Finding with the same predicate used to filter finds the same element. -/
theorem find?_filter_self {α : Type} (q : α → Bool) (l : List α) :
    (l.filter q).find? q = l.find? q := by
  induction l with
  | nil => rfl
  | cons a rest ih =>
    by_cases h : q a
    · simp [List.filter_cons, h, List.find?_cons]
    · simp [List.filter_cons, h, List.find?_cons, ih]

theorem nowLe_pure {α : Type} (a : α) : nowLe (pure a : M α) := by
  intro w; exact Nat.le_refl _

theorem nowLe_mpure {α : Type} (a : α) : nowLe (M.pure a) := by
  intro w; exact Nat.le_refl _

theorem nowLe_bind {α β : Type} {x : M α} {f : α → M β}
    (hx : nowLe x) (hf : ∀ a, nowLe (f a)) : nowLe (x >>= f) := by
  intro w
  rw [bind_apply]
  have h1 := hx w
  rcases hxw : x w with ⟨r, w2⟩
  rw [hxw] at h1
  cases r with
  | ok a =>
    have h2 := hf a w2
    exact Nat.le_trans h1 h2
  | error e => exact h1

theorem nowLe_tryCatchM {α : Type} {x : M α} {h : String → M α}
    (hx : nowLe x) (hh : ∀ e, nowLe (h e)) : nowLe (tryCatchM x h) := by
  intro w
  rw [tryCatchM_apply]
  have h1 := hx w
  rcases hxw : x w with ⟨r, w2⟩
  rw [hxw] at h1
  cases r with
  | ok a => exact h1
  | error e =>
    have h2 := hh e w2
    exact Nat.le_trans h1 h2

theorem nowLe_mThrow {α : Type} (e : String) : nowLe (mThrow e : M α) := by
  intro w; exact Nat.le_refl _

theorem nowLe_mSleep (ms : Nat) : nowLe (mSleep ms) := by
  intro w; exact Nat.le_add_right _ _

theorem nowLe_getWorld : nowLe getWorld := by
  intro w; exact Nat.le_refl _

theorem nowLe_httpAttempt (c : ApiCall) : nowLe (httpAttempt c) := by
  intro w
  unfold httpAttempt
  dsimp only
  split <;> exact Nat.le_refl _

theorem nowLe_requestStoriesBySlug (slug : String) :
    nowLe (requestStoriesBySlug slug) := by
  unfold requestStoriesBySlug
  exact nowLe_bind (nowLe_httpAttempt _) (fun _ =>
    nowLe_bind nowLe_getWorld (fun _ => nowLe_pure _))

theorem nowLe_requestCreateStory (p : StoryPayload) :
    nowLe (requestCreateStory p) := by
  unfold requestCreateStory
  refine nowLe_bind (nowLe_httpAttempt _) (fun _ => ?_)
  refine nowLe_bind nowLe_getWorld (fun _ => ?_)
  refine nowLe_bind (fun w => Nat.le_refl _) (fun _ => nowLe_pure _)

theorem nowLe_requestUpdateStory (storyId : Nat) (p : StoryPayload) :
    nowLe (requestUpdateStory storyId p) := by
  unfold requestUpdateStory
  exact nowLe_bind (nowLe_httpAttempt _) (fun _ => fun w => Nat.le_refl _)

theorem nowLe_requestDeleteStory (storyId : Nat) :
    nowLe (requestDeleteStory storyId) := by
  unfold requestDeleteStory
  exact nowLe_bind (nowLe_httpAttempt _) (fun _ => fun w => Nat.le_refl _)

theorem nowLe_findStoryBySlug (slug : String) :
    nowLe (findStoryBySlug slug) := by
  unfold findStoryBySlug
  exact nowLe_tryCatchM
    (nowLe_bind (nowLe_requestStoriesBySlug _) (fun _ => nowLe_pure _))
    (fun _ => nowLe_mpure _)

theorem nowLe_variantLookupLoop (ps : String) (l : List VariantE) :
    nowLe (variantLookupLoop ps l) := by
  induction l with
  | nil => exact nowLe_mpure _
  | cons v rest ih =>
    unfold variantLookupLoop
    refine nowLe_bind (nowLe_findStoryBySlug _) (fun st => ?_)
    refine nowLe_bind ih (fun tail => ?_)
    cases st <;> exact nowLe_pure _

theorem nowLe_findVariantStoriesForProduct (db : Db) (productId : Nat)
    (lang : String) (productSlug : Option String) :
    nowLe (findVariantStoriesForProduct db productId lang productSlug) := by
  unfold findVariantStoriesForProduct
  cases productSlug with
  | none => exact nowLe_mpure _
  | some ps => exact nowLe_variantLookupLoop _ _

theorem nowLe_findParentProductStory (db : Db) (variant : VariantE)
    (lang : String) : nowLe (findParentProductStory db variant lang) := by
  unfold findParentProductStory
  refine nowLe_tryCatchM ?_ (fun _ => nowLe_mpure _)
  split
  · exact nowLe_mpure _
  · split
    · exact nowLe_bind (nowLe_findStoryBySlug _) (fun _ => nowLe_pure _)
    · exact nowLe_mpure _

theorem nowLe_transformVariantData (db : Db) (variant : VariantE)
    (lang : String) : nowLe (transformVariantData db variant lang) := by
  unfold transformVariantData
  cases getTranslationByLanguage variant.translations lang with
  | none => exact nowLe_mpure _
  | some dt =>
    exact nowLe_bind (nowLe_findParentProductStory _ _ _)
      (fun _ => nowLe_pure _)

theorem nowLe_transformProductData (db : Db) (product : ProductE)
    (lang : String) (productSlug : Option String) :
    nowLe (transformProductData db product lang productSlug) := by
  unfold transformProductData
  cases getTranslationByLanguage product.translations lang with
  | none => exact nowLe_mpure _
  | some dt =>
    exact nowLe_bind (nowLe_findVariantStoriesForProduct _ _ _ _)
      (fun _ => nowLe_pure _)

theorem nowLe_createStoryFromProduct (db : Db) (product : ProductE)
    (lang : String) (productSlug : Option String) :
    nowLe (createStoryFromProduct db product lang productSlug) := by
  unfold createStoryFromProduct
  refine nowLe_bind (nowLe_transformProductData _ _ _ _) (fun d => ?_)
  cases d with
  | none => exact nowLe_pure _
  | some payload =>
    exact nowLe_bind (nowLe_requestCreateStory _) (fun _ => nowLe_pure _)

theorem nowLe_updateStoryFromProduct (db : Db) (product : ProductE)
    (lang : String) (productSlug : Option String) :
    nowLe (updateStoryFromProduct db product lang productSlug) := by
  unfold updateStoryFromProduct
  cases getSlugByLanguage product.translations lang with
  | none => exact nowLe_mpure _
  | some slug =>
    refine nowLe_bind (nowLe_findStoryBySlug _) (fun ex => ?_)
    cases ex with
    | none => exact nowLe_createStoryFromProduct _ _ _ _
    | some st =>
      refine nowLe_bind (nowLe_transformProductData _ _ _ _) (fun d => ?_)
      cases d with
      | none => exact nowLe_pure _
      | some payload => exact nowLe_requestUpdateStory _ _

theorem nowLe_deleteStoryFromProduct (product : ProductE) (lang : String) :
    nowLe (deleteStoryFromProduct product lang) := by
  unfold deleteStoryFromProduct
  cases getSlugByLanguage product.translations lang with
  | none => exact nowLe_mpure _
  | some slug =>
    refine nowLe_bind (nowLe_findStoryBySlug _) (fun ex => ?_)
    cases ex with
    | none => exact nowLe_pure _
    | some st => exact nowLe_requestDeleteStory _

theorem nowLe_syncProduct (db : Db) (product : ProductE) (lang : String)
    (op : OperationType) (productSlug : Option String) :
    nowLe (syncProduct db product lang op productSlug) := by
  unfold syncProduct
  cases op with
  | create => exact nowLe_createStoryFromProduct _ _ _ _
  | update => exact nowLe_updateStoryFromProduct _ _ _ _
  | delete => exact nowLe_deleteStoryFromProduct _ _

theorem nowLe_syncProductToCms (db : Db) (lang : String)
    (jobData : SyncJobData) : nowLe (syncProductToCms db lang jobData) := by
  unfold syncProductToCms
  refine nowLe_tryCatchM ?_ (fun _ => nowLe_mpure _)
  cases db.products.find? (fun p => toString p.id == jobData.entityId) with
  | none => exact nowLe_mThrow _
  | some product =>
    refine nowLe_bind (nowLe_syncProduct _ _ _ _ _) (fun _ => ?_)
    refine nowLe_bind (nowLe_mSleep _) (fun _ => ?_)
    exact nowLe_bind nowLe_getWorld (fun _ => nowLe_pure _)

/-- Claim C1 (code bug): the bulk reconciliation loop is supposed to retry an
always-failing entity maxAttempts - 1 = 9 times and then record it once in
the errors list with attempts = 10.  In the code, every processor wraps its
body in try/catch and returns a SyncResponse instead of throwing, so the bulk
loop — which counts a success whenever syncMethod resolves and reaches its
retry/permanent-failure machinery only on a thrown error — counts the failed
sync as a success.  This theorem evaluates the composed pipeline on a bulk
run over one product with the external API failing on every call: the
processor itself reports success false, no story is ever created, yet the run
ends after a single attempt (one job start) with successCount 1, errorCount
0, an empty errors list and overall success true. -/
theorem C1_bulk_run_counts_failures_as_success :
    (syncProductToCms dbExampleA "en"
        { entityType := "Product", entityId := "1"
          operationType := OperationType.update } worldDown).1 =
      Except.ok
        { success := false
          message := "Product sync failed: Storyblok API error: 500"
          timestamp := none } ∧
    (syncAllProductsToCms dbExampleA "en" 10 worldDown).1 =
      { success := true, totalEntities := 1, successCount := 1
        errorCount := 0, errors := [] } ∧
    (syncAllProductsToCms dbExampleA "en" 10 worldDown).2.jobStarts = [200] ∧
    (syncAllProductsToCms dbExampleA "en" 10 worldDown).2.world.stories =
      [] := by
  refine ⟨rfl, rfl, rfl, rfl⟩

/-- Claim C3 (confirmed): a sync job whose entity id is not in the commerce
database never throws across the processor contract: each processor returns
success false with the message embedding the id followed by "not found", and
the world — clock, stories and outbound-call trace — is left untouched, so no
external API call is issued for the job. -/
theorem C3_not_found_structured_failure (db : Db) (lang id : String)
    (op : OperationType) (w : World)
    (hp : db.products.find? (fun p => toString p.id == id) = none)
    (hv : db.variants.find? (fun v => toString v.id == id) = none)
    (hc : db.collections.find? (fun c => toString c.id == id) = none) :
    syncProductToCms db lang
        { entityType := "product", entityId := id, operationType := op } w =
      (Except.ok
        { success := false
          message := "Product sync failed: Product with ID " ++ id ++
            " not found" }, w) ∧
    syncVariantToCms db lang
        { entityType := "variant", entityId := id, operationType := op } w =
      (Except.ok
        { success := false
          message := "Variant sync failed: ProductVariant with ID " ++ id ++
            " not found" }, w) ∧
    syncCollectionToCms db lang
        { entityType := "collection", entityId := id
          operationType := op } w =
      (Except.ok
        { success := false
          message := "Collection sync failed: Collection with ID " ++ id ++
            " not found" }, w) := by
  refine ⟨?_, ?_, ?_⟩
  · unfold syncProductToCms
    rw [tryCatchM_apply]
    rw [hp]
    rfl
  · unfold syncVariantToCms
    rw [tryCatchM_apply]
    rw [hv]
    rfl
  · unfold syncCollectionToCms
    rw [tryCatchM_apply]
    rw [hc]
    rfl

/-- Witness for C3: Example B of the spec — a delete job for Collection id
999 on an empty database yields success false with message "Collection sync
failed: Collection with ID 999 not found" (which contains "999 not found"),
and likewise for the other two processors, with the world unchanged. -/
theorem C3_not_found_structured_failure_witness :
    syncProductToCms dbEmpty "en"
        { entityType := "product", entityId := "999"
          operationType := OperationType.delete } worldUp =
      (Except.ok
        { success := false
          message := "Product sync failed: Product with ID 999 not found" },
       worldUp) ∧
    syncVariantToCms dbEmpty "en"
        { entityType := "variant", entityId := "999"
          operationType := OperationType.delete } worldUp =
      (Except.ok
        { success := false
          message :=
            "Variant sync failed: ProductVariant with ID 999 not found" },
       worldUp) ∧
    syncCollectionToCms dbEmpty "en"
        { entityType := "collection", entityId := "999"
          operationType := OperationType.delete } worldUp =
      (Except.ok
        { success := false
          message :=
            "Collection sync failed: Collection with ID 999 not found" },
       worldUp) := by
  have h := C3_not_found_structured_failure dbEmpty "en" "999"
    OperationType.delete worldUp rfl rfl rfl
  exact h

/-- Counterexample to claim C5: a variant-change notification carrying the
two variants 5 and 6 enqueues a single job (for variant 5), not one job per
variant — the dispatcher reads only event.entity[0]. -/
theorem C5_multi_variant_notification_single_job :
    (handleVariantEvent
        { eventType := "updated"
          variants := [variantFive, variantSix] }).length = 1 ∧
    ¬ (handleVariantEvent
        { eventType := "updated"
          variants := [variantFive, variantSix] }).length =
      ([variantFive, variantSix] : List VariantE).length ∧
    (handleVariantEvent
        { eventType := "updated"
          variants := [variantFive, variantSix] }).map
        (fun j => j.entityId) = ["5"] := by
  refine ⟨rfl, by decide, rfl⟩

/-- Claim C5 as amended: a variant-change notification with a nonempty
variant list enqueues exactly one sync job, identifying the first variant in
the list, with the mapped operation type and that variant's snapshot; the
remaining variants produce no jobs. -/
theorem C5_one_job_for_first_variant (eventType : String) (v : VariantE)
    (vs : List VariantE) :
    handleVariantEvent { eventType := eventType, variants := v :: vs } =
      [{ entityType := "variant"
         entityId := toString v.id
         operationType := mapEventTypeToOperation eventType
         vendureData :=
           { id := toString v.id
             translations := v.translations.map (fun t =>
               { languageCode := t.languageCode, name := t.name }) } }] := rfl

/-- Claim C9 (confirmed): Example A of the spec.  A create job for product 1
(language en, name Laptop Computer, slug laptop-computer, no variants) yields
success true with message "Product create synced successfully" and a
timestamp, and the single outbound call is a POST of the payload with
vendureId "1", name "Laptop Computer", slug "laptop-computer" and an empty
variants list, which becomes the stored story. -/
theorem C9_example_a_create_product :
    syncProductToCms dbExampleA "en"
        { entityType := "product", entityId := "1"
          operationType := OperationType.create } worldUp =
      (Except.ok
        { success := true
          message := "Product create synced successfully"
          timestamp := some 100 },
       { worldUp with
         now := 100
         stories :=
           [{ id := 1, name := "Laptop Computer"
              slug := some "laptop-computer"
              content := StoryContent.productContent "1" [] }]
         nextId := 2
         trace :=
           [(0, ApiCall.post "stories"
             { name := "Laptop Computer"
               slug := some "laptop-computer"
               content := StoryContent.productContent "1" []
               publish := 1 })] }) := rfl

/-- Claim C10 (code bug): CmsSyncService.syncVariantToCms derives the variant
slug laptop-computer-variant-5 from the parent product slug (with fallback
variant-5 when the product slug is missing), but passes it to
StoryblokService.syncProductVariant, whose parameter object does not include
it.  The created variant story therefore carries the variant translation slug
— which is absent — instead of the derived slug, and the product-side
relationship lookup, which searches only productSlug-variant-id, finds
nothing even though the variant story exists. -/
theorem C10_derived_variant_slug_never_used :
    derivedVariantSlug (some "laptop-computer") 5 =
      "laptop-computer-variant-5" ∧
    derivedVariantSlug none 5 = "variant-5" ∧
    (syncVariantToCms dbWithVariant "en"
        { entityType := "variant", entityId := "5"
          operationType := OperationType.create } worldUp).2.stories =
      [{ id := 1, name := "Red", slug := none
         content := StoryContent.variantContent "5" [] }] ∧
    (syncVariantToCms dbWithVariant "en"
        { entityType := "variant", entityId := "5"
          operationType := OperationType.create } worldUp).1 =
      Except.ok
        { success := true
          message := "Variant create synced successfully"
          timestamp := some 100 } ∧
    (findVariantStoriesForProduct dbWithVariant 1 "en"
        (some "laptop-computer")
        (syncVariantToCms dbWithVariant "en"
          { entityType := "variant", entityId := "5"
            operationType := OperationType.create } worldUp).2).1 =
      Except.ok [] := by
  refine ⟨rfl, rfl, rfl, rfl, rfl⟩

/-- Counterexample to claim C2: with the product 1 story already stored under
its canonical slug, a second sync with operation create does not resolve and
update the existing entry — createStoryFromProduct POSTs unconditionally, so
a second story with the same slug is created (claim C2 asserts this for any
of the create/update operation types). -/
theorem C2_create_operation_duplicates_entry :
    ((syncProductToCms dbExampleA "en"
        { entityType := "product", entityId := "1"
          operationType := OperationType.create }
        worldWithProductStory).2.stories.filter
      (fun st => st.slug == some "laptop-computer")).length = 2 ∧
    (syncProductToCms dbExampleA "en"
        { entityType := "product", entityId := "1"
          operationType := OperationType.create }
        worldWithProductStory).2.trace.map Prod.snd =
      [ApiCall.post "stories"
        { name := "Laptop Computer", slug := some "laptop-computer"
          content := StoryContent.productContent "1" [], publish := 1 }] := by
  refine ⟨rfl, rfl⟩

/-- Counterexample to claim C7: the transform step is not I/O-free — on a
product with a stored variant and a known product slug, transformProductData
itself issues an outbound slug-lookup GET while resolving the relationship
references (the spec says lookups are passed in pre-resolved). -/
theorem C7_transform_performs_io :
    (transformProductData dbWithVariant productOne "en"
        (some "laptop-computer") worldUp).2.trace =
      [(0, ApiCall.get "stories?by_slugs=laptop-computer-variant-5")] ∧
    ¬ (transformProductData dbWithVariant productOne "en"
        (some "laptop-computer") worldUp).2.trace = worldUp.trace := by
  refine ⟨rfl, by decide⟩

/-- Counterexample to claim C8: a create job for a product that exists but
has no default-language translation does not return a distinguishable Skipped
outcome — it returns success true with the very message "Product create
synced successfully" that a genuinely synced product (Example A) returns, so
the outcome carries no skip or warning marker; the skip is visible only in
the absence of any outbound call. -/
theorem C8_skip_indistinguishable_from_success :
    (syncProductToCms dbGermanOnly "en"
        { entityType := "product", entityId := "2"
          operationType := OperationType.create } worldUp).1 =
      Except.ok
        { success := true
          message := "Product create synced successfully"
          timestamp := some 100 } ∧
    (syncProductToCms dbGermanOnly "en"
        { entityType := "product", entityId := "2"
          operationType := OperationType.create } worldUp).2.trace = [] ∧
    Except.map SyncResponse.message
        (syncProductToCms dbGermanOnly "en"
          { entityType := "product", entityId := "2"
            operationType := OperationType.create } worldUp).1 =
      Except.map SyncResponse.message
        (syncProductToCms dbExampleA "en"
          { entityType := "product", entityId := "1"
            operationType := OperationType.create } worldUp).1 := by
  refine ⟨rfl, rfl, rfl⟩

/-- Counterexample to claim C4: in a bulk run over product 1 (which has a
stored variant and an existing story), one job issues three outbound calls —
the update-path slug lookup, the relationship slug lookup and the PUT — all
starting at the same millisecond 200.  The start times of consecutive
outbound calls are therefore not spaced by the configured minimum interval
1000 / 5 = 200 ms; nothing in makeStoryblokRequest enforces any spacing. -/
theorem C4_intra_job_calls_not_spaced :
    ((syncAllProductsToCms dbWithVariant "en" 10
        worldWithProductStory).2.world.trace.map Prod.fst) =
      [200, 200, 200] ∧
    ¬ MinSpaced rateLimitDelay
      ((syncAllProductsToCms dbWithVariant "en" 10
          worldWithProductStory).2.world.trace.map Prod.fst) := by
  refine ⟨rfl, ?_⟩
  intro h
  rw [MinSpaced] at h
  have h2 : ((syncAllProductsToCms dbWithVariant "en" 10
      worldWithProductStory).2.world.trace.map Prod.fst) = [200, 200, 200] :=
    rfl
  rw [h2] at h
  rw [List.chain'_cons] at h
  have h3 := h.1
  simp only [rateLimitDelay] at h3
  omega

/-- Timer delivery changes only the queue and the pending timers; the world
and the recorded job starts are untouched. -/
theorem bulkInv_deliverDueTimers (st : BulkState) :
    bulkInv (deliverDueTimers st) = bulkInv st := rfl

/-- Appending the next start time n + gap preserves minimum spacing when all
previous start times are at most n. -/
theorem minSpaced_snoc (gap : Nat) (xs : List Nat) (n : Nat)
    (h1 : MinSpaced gap xs) (h2 : ∀ x ∈ xs, x ≤ n) :
    MinSpaced gap (xs ++ [n + gap]) := by
  unfold MinSpaced at *
  rw [List.chain'_append]
  refine ⟨h1, List.chain'_singleton _, ?_⟩
  intro x hx y hy
  simp only [List.head?_cons, Option.mem_def, Option.some.injEq] at hy
  subst hy
  have hmem : x ∈ xs := List.mem_of_mem_getLast? hx
  have hxn := h2 x hmem
  exact Nat.add_le_add_right hxn gap

/-- Extending the job starts by the post-delay clock value preserves the bulk
invariant for any world at least rateLimitDelay past the previous clock. -/
theorem bulkInvExtend (st : BulkState) (w2 : World) (q : List EntityJob)
    (tm : List (Nat × EntityJob)) (sc ec pc : Nat) (fe : List BulkError)
    (hchain : MinSpaced rateLimitDelay st.jobStarts)
    (hle : ∀ x ∈ st.jobStarts, x ≤ st.world.now)
    (hnow : st.world.now + rateLimitDelay ≤ w2.now) :
    bulkInv
      { world := w2, queue := q, timers := tm, successCount := sc,
        errorCount := ec, finalErrors := fe, processedCount := pc,
        jobStarts := st.jobStarts ++ [st.world.now + rateLimitDelay] } := by
  refine ⟨minSpaced_snoc _ _ _ hchain hle, ?_⟩
  intro x hx
  dsimp only at hx ⊢
  rcases List.mem_append.mp hx with hx1 | hx2
  · have := hle x hx1
    omega
  · simp only [List.mem_singleton] at hx2
    omega

/-- One bulk iteration preserves the rate-limit invariant, provided the sync
method never moves the clock backwards: the new start time is the clock after
the awaited rate delay, hence at least rateLimitDelay past every earlier
start. -/
theorem bulkStep_inv (m : SyncJobData → M SyncResponse)
    (hm : ∀ jd, nowLe (m jd)) (t : String) (st : BulkState)
    (h : bulkInv st) : bulkInv (bulkStep m t st) := by
  obtain ⟨hchain, hle⟩ := h
  unfold bulkStep
  cases hq : st.queue with
  | nil => exact ⟨hchain, hle⟩
  | cons j rest =>
    dsimp only
    split
    · next a w2 heq =>
      rw [bulkInv_deliverDueTimers]
      have hnow : st.world.now + rateLimitDelay ≤ w2.now := by
        have hv := hm
          { entityType := t, entityId := j.entityId,
            operationType := OperationType.update }
          { st.world with now := st.world.now + rateLimitDelay }
        rw [heq] at hv
        exact hv
      exact bulkInvExtend st w2 _ _ _ _ _ _ hchain hle hnow
    · next e w2 heq =>
      have hnow : st.world.now + rateLimitDelay ≤ w2.now := by
        have hv := hm
          { entityType := t, entityId := j.entityId,
            operationType := OperationType.update }
          { st.world with now := st.world.now + rateLimitDelay }
        rw [heq] at hv
        exact hv
      split
      · rw [bulkInv_deliverDueTimers]
        exact bulkInvExtend st w2 _ _ _ _ _ _ hchain hle hnow
      · rw [bulkInv_deliverDueTimers]
        exact bulkInvExtend st w2 _ _ _ _ _ _ hchain hle hnow

/-- The bulk while loop preserves the rate-limit invariant. -/
theorem bulkLoop_inv (m : SyncJobData → M SyncResponse)
    (hm : ∀ jd, nowLe (m jd)) (t : String) :
    ∀ (fuel : Nat) (st : BulkState),
      bulkInv st → bulkInv (bulkLoop m t fuel st) := by
  intro fuel
  induction fuel with
  | zero => intro st h; exact h
  | succ n ih =>
    intro st h
    unfold bulkLoop
    cases hq : st.queue with
    | nil => exact h
    | cons j rest => exact ih _ (bulkStep_inv m hm t st h)

/-- Claim C4 as amended: the only rate limiting in a bulk run is the 1000 / 5
= 200 ms await placed before each invocation of the per-entity sync method;
consecutive sync invocations therefore start at least 200 ms apart, but the
individual HTTP calls a single job makes are issued back to back with no
enforced spacing (see the counterexample). -/
theorem C4_job_starts_rate_limited (db : Db) (lang : String) (fuel : Nat)
    (w : World) :
    MinSpaced rateLimitDelay
      ((syncAllProductsToCms db lang fuel w).2.jobStarts) := by
  have hinit : bulkInv (initialBulkState w
      ((db.products.insertionSort (fun a b => a.id ≤ b.id)).map
        (fun p => toString p.id))) := by
    constructor
    · exact List.chain'_nil
    · intro x hx
      simp [initialBulkState] at hx
  have h := bulkLoop_inv (syncProductToCms db lang)
    (fun jd => nowLe_syncProductToCms db lang jd) "Product" fuel
    (initialBulkState w
      ((db.products.insertionSort (fun a b => a.id ≤ b.id)).map
        (fun p => toString p.id))) hinit
  exact h.1

/-- Unfolding lemma: running M.pure returns the value and leaves the world. -/
theorem mpure_apply {α : Type} (a : α) (w : World) :
    M.pure a w = (Except.ok a, w) := rfl

/-- Claim C8 as amended: a sync job for a product that exists but has no
localized variant matching the default language code is a silent skip — the
processor makes no external call and leaves the story store untouched for all
three operation types, but it reports the ordinary success outcome "Product
<operation> synced successfully" (with a timestamp) rather than a
distinguishable Skipped outcome; the warning exists only in the logs. -/
theorem C8_skip_success_without_external_call (db : Db) (lang : String)
    (job : SyncJobData) (product : ProductE) (w : World)
    (hfind : db.products.find? (fun p => toString p.id == job.entityId) =
      some product)
    (hno : getTranslationByLanguage product.translations lang = none) :
    syncProductToCms db lang job w =
      (Except.ok
        { success := true
          message := "Product " ++ job.operationType.toStr ++
            " synced successfully"
          timestamp := some (w.now + 100) },
       { w with now := w.now + 100 }) := by
  have hslug : getSlugByLanguage product.translations lang = none := by
    simp [getSlugByLanguage, hno]
  unfold syncProductToCms
  rw [tryCatchM_apply, hfind]
  cases hop : job.operationType with
  | create =>
    simp [syncProduct, validateTranslations, createStoryFromProduct,
      transformProductData, hno, hslug, bind_apply, pure_apply, mpure_apply,
      mSleep, getWorld, hop]
  | update =>
    simp [syncProduct, validateTranslations, updateStoryFromProduct,
      hno, hslug, bind_apply, pure_apply, mpure_apply,
      mSleep, getWorld, hop]
  | delete =>
    simp [syncProduct, validateTranslations, deleteStoryFromProduct,
      hno, hslug, bind_apply, pure_apply, mpure_apply,
      mSleep, getWorld, hop]

/-- Witness for C8: the German-only product (id 2) under default language en,
for a create job — the theorem applies, giving the plain success outcome at
timestamp 100 with the world advanced only by the simulated delay. -/
theorem C8_skip_success_without_external_call_witness :
    syncProductToCms dbGermanOnly "en"
        { entityType := "product", entityId := "2"
          operationType := OperationType.create } worldUp =
      (Except.ok
        { success := true
          message := "Product " ++ OperationType.create.toStr ++
            " synced successfully"
          timestamp := some (worldUp.now + 100) },
       { worldUp with now := worldUp.now + 100 }) :=
  C8_skip_success_without_external_call dbGermanOnly "en"
    { entityType := "product", entityId := "2"
      operationType := OperationType.create }
    productGermanOnly worldUp rfl rfl

/-- Claim C6 (confirmed): relationship resolution is eventually consistent
and never throws.  For a variant with a default-language translation: when
its product is absent from the database the transform resolves parentProduct
to the empty list with no lookup at all; when the product exists with a
default-language slug but no story is stored under that slug, the transform
issues one slug-lookup GET and still resolves parentProduct to the empty list
— never an error; once the story for the product exists under that slug,
re-running the transform resolves parentProduct to exactly the one-element
list holding that story's external id. -/
theorem C6_parent_link_eventually_consistent :
    (∀ (db : Db) (variant : VariantE) (lang : String) (dt : Translation)
        (w : World),
      getTranslationByLanguage variant.translations lang = some dt →
      db.products.find? (fun p => p.id == variant.productId) = none →
      transformVariantData db variant lang w =
        (Except.ok (some
          { name := dt.name
            slug := getSlugByLanguage variant.translations lang
            content := StoryContent.variantContent (toString variant.id) []
            publish := 1 }), w)) ∧
    (∀ (db : Db) (variant : VariantE) (lang : String) (dt : Translation)
        (product : ProductE) (s : String) (w : World),
      getTranslationByLanguage variant.translations lang = some dt →
      db.products.find? (fun p => p.id == variant.productId) =
        some product →
      getSlugByLanguage product.translations lang = some s →
      w.httpOk = (fun _ => true) →
      w.stories.find? (fun st => st.slug == some s) = none →
      transformVariantData db variant lang w =
        (Except.ok (some
          { name := dt.name
            slug := getSlugByLanguage variant.translations lang
            content := StoryContent.variantContent (toString variant.id) []
            publish := 1 }),
         { w with trace := w.trace ++
            [(w.now, ApiCall.get ("stories?by_slugs=" ++ s))] })) ∧
    (∀ (db : Db) (variant : VariantE) (lang : String) (dt : Translation)
        (product : ProductE) (s : String) (st0 : Story) (w : World),
      getTranslationByLanguage variant.translations lang = some dt →
      db.products.find? (fun p => p.id == variant.productId) =
        some product →
      getSlugByLanguage product.translations lang = some s →
      w.httpOk = (fun _ => true) →
      w.stories.find? (fun st => st.slug == some s) = some st0 →
      transformVariantData db variant lang w =
        (Except.ok (some
          { name := dt.name
            slug := getSlugByLanguage variant.translations lang
            content := StoryContent.variantContent (toString variant.id)
              [toString st0.id]
            publish := 1 }),
         { w with trace := w.trace ++
            [(w.now, ApiCall.get ("stories?by_slugs=" ++ s))] })) := by
  refine ⟨?_, ?_, ?_⟩
  · intro db variant lang dt w ht hnoprod
    simp [transformVariantData, findParentProductStory, ht, hnoprod,
      tryCatchM_apply, bind_apply, pure_apply, mpure_apply]
  · intro db variant lang dt product s w ht hprod hslug hnet hnostory
    have hge : ((w.stories.filter (fun st => st.slug == some s)).find?
        (fun st => st.slug == some s)) = none := by
      rw [find?_filter_self]
      exact hnostory
    simp [transformVariantData, findParentProductStory, findStoryBySlug,
      requestStoriesBySlug, httpAttempt, ht, hprod, hslug, hnet, hge,
      tryCatchM_apply, bind_apply, pure_apply, mpure_apply, getWorld]
  · intro db variant lang dt product s st0 w ht hprod hslug hnet hstory
    have hge : ((w.stories.filter (fun st => st.slug == some s)).find?
        (fun st => st.slug == some s)) = some st0 := by
      rw [find?_filter_self]
      exact hstory
    simp [transformVariantData, findParentProductStory, findStoryBySlug,
      requestStoriesBySlug, httpAttempt, ht, hprod, hslug, hnet, hge,
      tryCatchM_apply, bind_apply, pure_apply, mpure_apply, getWorld]

/-- Witness for C6: variant 5 of product 1.  Before the product story exists
(fresh world) the transform yields parentProduct []; in the world already
holding the product 1 story with external id 7 it yields parentProduct
["7"]; and with the product deleted from the database it yields parentProduct
[] without any call. -/
theorem C6_parent_link_eventually_consistent_witness :
    transformVariantData
        { products := [], variants := [variantFive], collections := [] }
        variantFive "en" worldUp =
      (Except.ok (some
        { name := "Red"
          slug := getSlugByLanguage variantFive.translations "en"
          content := StoryContent.variantContent "5" []
          publish := 1 }), worldUp) ∧
    transformVariantData dbWithVariant variantFive "en" worldUp =
      (Except.ok (some
        { name := "Red"
          slug := getSlugByLanguage variantFive.translations "en"
          content := StoryContent.variantContent "5" []
          publish := 1 }),
       { worldUp with trace := worldUp.trace ++
          [(worldUp.now,
            ApiCall.get "stories?by_slugs=laptop-computer")] }) ∧
    transformVariantData dbWithVariant variantFive "en"
        worldWithProductStory =
      (Except.ok (some
        { name := "Red"
          slug := getSlugByLanguage variantFive.translations "en"
          content := StoryContent.variantContent "5" ["7"]
          publish := 1 }),
       { worldWithProductStory with
         trace := worldWithProductStory.trace ++
          [(worldWithProductStory.now,
            ApiCall.get "stories?by_slugs=laptop-computer")] }) := by
  refine ⟨?_, ?_, ?_⟩
  · exact C6_parent_link_eventually_consistent.1
      { products := [], variants := [variantFive], collections := [] }
      variantFive "en" { languageCode := "en", name := "Red" } worldUp
      rfl rfl
  · exact C6_parent_link_eventually_consistent.2.1 dbWithVariant variantFive
      "en" { languageCode := "en", name := "Red" } productOne
      "laptop-computer" worldUp rfl rfl rfl rfl rfl
  · exact C6_parent_link_eventually_consistent.2.2 dbWithVariant variantFive
      "en" { languageCode := "en", name := "Red" } productOne
      "laptop-computer" existingProductStory worldWithProductStory
      rfl rfl rfl rfl rfl

/-- findStoryBySlug always resolves (the catch swallows request failures into
none) and its only effect is to record exactly one slug-lookup GET. -/
theorem findStoryBySlug_total (slug : String) (w : World) :
    ∃ r : Option Story,
      findStoryBySlug slug w =
        (Except.ok r,
         { w with trace := w.trace ++
            [(w.now, ApiCall.get ("stories?by_slugs=" ++ slug))] }) := by
  unfold findStoryBySlug requestStoriesBySlug
  by_cases hok : w.httpOk w.trace.length
  · refine ⟨(w.stories.filter (fun s => s.slug == some slug)).find?
      (fun s => s.slug == some slug), ?_⟩
    simp [tryCatchM_apply, bind_apply, pure_apply, mpure_apply, httpAttempt,
      hok, getWorld]
  · refine ⟨none, ?_⟩
    simp [tryCatchM_apply, bind_apply, pure_apply, mpure_apply, httpAttempt,
      hok, getWorld]

/-- The variant slug lookup loop always resolves, leaves clock, stories, id
allocator and oracle unchanged, and records exactly one GET per variant. -/
theorem variantLookupLoop_total (ps : String) :
    ∀ (l : List VariantE) (w : World), ∃ ids w2,
      variantLookupLoop ps l w = (Except.ok ids, w2) ∧
      w2.now = w.now ∧ w2.stories = w.stories ∧ w2.nextId = w.nextId ∧
      w2.httpOk = w.httpOk ∧
      w2.trace.length = w.trace.length + l.length := by
  intro l
  induction l with
  | nil =>
    intro w
    exact ⟨[], w, rfl, rfl, rfl, rfl, rfl, by simp⟩
  | cons v rest ih =>
    intro w
    obtain ⟨r, hr⟩ :=
      findStoryBySlug_total (ps ++ "-variant-" ++ toString v.id) w
    obtain ⟨ids, w2, hloop, hnow, hst, hnx, hok, hlen⟩ :=
      ih { w with trace := w.trace ++
        [(w.now, ApiCall.get
          ("stories?by_slugs=" ++ (ps ++ "-variant-" ++ toString v.id)))] }
    simp only [List.length_append, List.length_cons, List.length_nil] at hlen
    cases r with
    | none =>
      refine ⟨ids, w2, ?_, hnow, hst, hnx, hok, ?_⟩
      · show (variantLookupLoop ps (v :: rest)) w = (Except.ok ids, w2)
        unfold variantLookupLoop
        simp [bind_apply, hr, hloop, pure_apply]
      · simp only [List.length_cons]
        omega
    | some st =>
      refine ⟨toString st.id :: ids, w2, ?_, hnow, hst, hnx, hok, ?_⟩
      · show (variantLookupLoop ps (v :: rest)) w =
          (Except.ok (toString st.id :: ids), w2)
        unfold variantLookupLoop
        simp [bind_apply, hr, hloop, pure_apply]
      · simp only [List.length_cons]
        omega

/-- Claim C7 as amended: for a product with a default-language translation,
the transform is a deterministic function of the entity, the language, the
product slug, the database and the CMS state, and the payload it produces
carries vendureId equal to the stringified entity id; but it is not I/O-free
— it performs one slug-lookup HTTP GET per stored variant of the product
while resolving the relationship references (zero calls only when the product
slug is absent).  The clock and the story store are not modified by the
transform. -/
theorem C7_transform_deterministic_vendureId (db : Db) (p : ProductE)
    (lang : String) (productSlug : Option String) (w : World)
    (dt : Translation)
    (ht : getTranslationByLanguage p.translations lang = some dt) :
    ∃ ids w2,
      transformProductData db p lang productSlug w =
        (Except.ok (some
          { name := dt.name
            slug := getSlugByLanguage p.translations lang
            content := StoryContent.productContent (toString p.id) ids
            publish := 1 }), w2) ∧
      w2.now = w.now ∧ w2.stories = w.stories ∧
      w2.trace.length = w.trace.length +
        (match productSlug with
         | none => 0
         | some _ => (findProductVariants db p.id).length) := by
  unfold transformProductData
  rw [ht]
  cases productSlug with
  | none =>
    refine ⟨[], w, ?_, rfl, rfl, by simp⟩
    simp [findVariantStoriesForProduct, bind_apply, pure_apply, mpure_apply]
  | some ps =>
    obtain ⟨ids, w2, hloop, hnow, hst, hnx, hok, hlen⟩ :=
      variantLookupLoop_total ps (findProductVariants db p.id) w
    refine ⟨ids, w2, ?_, hnow, hst, by simpa using hlen⟩
    simp [findVariantStoriesForProduct, bind_apply, hloop, pure_apply]

/-- Witness for C7 as amended: product 1 with its stored variant 5 and slug
laptop-computer in a fresh world — the transform resolves, the payload
carries vendureId "1", and exactly one GET (one stored variant) is recorded. -/
theorem C7_transform_deterministic_vendureId_witness :
    ∃ ids w2,
      transformProductData dbWithVariant productOne "en"
          (some "laptop-computer") worldUp =
        (Except.ok (some
          { name := "Laptop Computer"
            slug := getSlugByLanguage productOne.translations "en"
            content := StoryContent.productContent "1" ids
            publish := 1 }), w2) ∧
      w2.now = worldUp.now ∧ w2.stories = worldUp.stories ∧
      w2.trace.length = worldUp.trace.length +
        (match (some "laptop-computer" : Option String) with
         | none => 0
         | some _ => (findProductVariants dbWithVariant 1).length) :=
  C7_transform_deterministic_vendureId dbWithVariant productOne "en"
    (some "laptop-computer") worldUp translationEn rfl

/-- Claim C2 as amended: upsert idempotence holds for the update operation
only.  For a product whose default-language translation carries slug s, with
an existing story stored under s and no stored variants, a further update
sync resolves the same canonical slug s (the recorded lookup GET targets s),
updates the existing story in place by its id via PUT, and creates no second
entry: the story list is merely mapped in place and the external id allocator
is untouched.  (A further sync with operation create POSTs unconditionally —
see the counterexample.) -/
theorem C2_update_upsert_idempotent (db : Db) (p : ProductE)
    (lang s : String) (t : Translation) (st0 : Story) (w : World)
    (ht : getTranslationByLanguage p.translations lang = some t)
    (hs : t.slug = some s)
    (hfind : w.stories.find? (fun st => st.slug == some s) = some st0)
    (hnet : w.httpOk = (fun _ => true))
    (hnovar : db.variants.filter (fun v => v.productId == p.id) = []) :
    syncProduct db p lang OperationType.update
        (getSlugByLanguage p.translations lang) w =
      (Except.ok (),
       { w with
         stories := w.stories.map (fun st =>
           if st.id == st0.id then
             { id := st.id, name := t.name, slug := some s
               content := StoryContent.productContent (toString p.id) [] }
           else st)
         trace := w.trace ++
           [(w.now, ApiCall.get ("stories?by_slugs=" ++ s)),
            (w.now, ApiCall.put ("stories/" ++ toString st0.id)
              { name := t.name, slug := some s
                content := StoryContent.productContent (toString p.id) []
                publish := 1 })] }) := by
  have hslug : getSlugByLanguage p.translations lang = some s := by
    simp [getSlugByLanguage, ht, hs]
  have hge : ((w.stories.filter (fun st => st.slug == some s)).find?
      (fun st => st.slug == some s)) = some st0 := by
    rw [find?_filter_self]
    exact hfind
  have hfs : findStoryBySlug s w =
      (Except.ok (some st0),
       { w with trace := w.trace ++
          [(w.now, ApiCall.get ("stories?by_slugs=" ++ s))] }) := by
    simp [findStoryBySlug, requestStoriesBySlug, tryCatchM_apply, bind_apply,
      pure_apply, mpure_apply, httpAttempt, hnet, getWorld, hge]
  simp [syncProduct, validateTranslations, updateStoryFromProduct, hslug,
    bind_apply, hfs, transformProductData, ht, findVariantStoriesForProduct,
    findProductVariants, hnovar, variantLookupLoop, pure_apply, mpure_apply,
    requestUpdateStory, httpAttempt, hnet, modifyWorld, hs]

/-- Witness for C2 as amended: product 1 with its story already stored under
laptop-computer (external id 7) — the update sync GETs the same slug, PUTs
story 7 in place, and neither the story count nor the id allocator grows. -/
theorem C2_update_upsert_idempotent_witness :
    syncProduct dbExampleA productOne "en" OperationType.update
        (getSlugByLanguage productOne.translations "en")
        worldWithProductStory =
      (Except.ok (),
       { worldWithProductStory with
         stories := worldWithProductStory.stories.map (fun st =>
           if st.id == existingProductStory.id then
             { id := st.id, name := "Laptop Computer"
               slug := some "laptop-computer"
               content := StoryContent.productContent "1" [] }
           else st)
         trace := worldWithProductStory.trace ++
           [(worldWithProductStory.now,
             ApiCall.get "stories?by_slugs=laptop-computer"),
            (worldWithProductStory.now,
             ApiCall.put "stories/7"
              { name := "Laptop Computer", slug := some "laptop-computer"
                content := StoryContent.productContent "1" []
                publish := 1 })] }) :=
  C2_update_upsert_idempotent dbExampleA productOne "en" "laptop-computer"
    translationEn existingProductStory worldWithProductStory
    rfl rfl rfl rfl rfl

end CmsSpec
